import Mathlib

/-!
Verification development for the `screen_reader` repository.

The Python sources under `src/` are shallowly embedded here:

* `states.py`, `state_rules.py`, `state_machine.py` — state resolution from
  detector results (`resolve_state` over the `STATE_RULES` table).
* `main.py` — the detector engine (`_first_ocr_hit_containing`,
  `run_detector`, `run_detectors`, `TemplateBank`,
  `find_any_template_in_frame`) and the action-dispatch chain of
  `_scan_once`.
* `window_manager.py` — geometry helpers, `looks_fullscreen_like` and the
  `ensure_window` enforcement sequence.

Modelling conventions:

* Python `dict`s of detector results become functions `String → Option _`
  (`dict.get` is `Option`-valued lookup; a dataclass instance is always
  truthy, so `results.get(name) and results[name].found` is
  "present and found").
* Python's `sorted(..., reverse=True)` is a stable descending sort; it is
  embedded as a stable insertion sort (`insertRuleDesc` / `insertHitDesc`):
  an element is inserted in front of later-declared elements of equal key,
  which is exactly Python's stability guarantee.
* Machine floats appear only as opencv match scores (used solely through
  their ordering, embedded as `Int`) and as the fullscreen cover ratios
  (embedded as exact `Rat` division; the decisive 95% boundary value is
  exactly representable on both sides of the comparison in the source,
  so the order comparison agrees with the float code at the inputs the
  claims are about).
* Effectful win32 calls are oracles: pure reads are functions of an
  abstract environment state `S`, corrective calls are state transformers
  `S → S`.  "No environmental change" between calls means the reads are
  functions of `S` alone.
-/

namespace ScreenReader

/-! ## states.py -/

def STATE_UNKNOWN : String := "UNKNOWN"

def STATE_IN_RUN : String := "IN_RUN"

def STATE_DEAD : String := "DEAD"

def STATE_MENU : String := "MENU"

def STATE_LOADING : String := "LOADING"

/-- The attribute table of the `states` module: exactly the five constants
defined in `states.py`.  `statesAttr n` is `some v` when `states.n`
evaluates to the string `v`, and `none` when the attribute access raises
`AttributeError`. -/
def statesAttr : String → Option String := fun n =>
  if n = "STATE_UNKNOWN" then some STATE_UNKNOWN
  else if n = "STATE_IN_RUN" then some STATE_IN_RUN
  else if n = "STATE_DEAD" then some STATE_DEAD
  else if n = "STATE_MENU" then some STATE_MENU
  else if n = "STATE_LOADING" then some STATE_LOADING
  else none

/-! ## Data model (`main.py` dataclasses) -/

/-- Payload of the `extra` field of a `DetectResult` (a small Python dict
in the source; its three shapes become a sum type). -/
inductive ExtraInfo where
  | err (msg : String)
  | ocrInfo (token : String) (min_conf : Int)
  | matchInfo (matched_path : Option String) (score : Int)
deriving DecidableEq, Repr

/-- One OCR word, `OcrHit` in `main.py`. -/
structure OcrHit where
  text : String
  conf : Int
  bbox : Int × Int × Int × Int
deriving DecidableEq, Repr

/-- Unified detector result, `DetectResult` in `main.py`. -/
structure DetectResult where
  name : String
  kind : String
  found : Bool
  bbox : Option (Int × Int × Int × Int) := none
  text : Option String := none
  conf : Option Int := none
  extra : Option ExtraInfo := none
deriving DecidableEq, Repr

/-- The detector-result map handed to `resolve_state`:
`results.get(name)` is `results name`. -/
abbrev Results := String → Option DetectResult

/-! ## state_rules.py -/

/-- One entry of the `STATE_RULES` table. -/
structure Rule where
  state : String
  require_all : List String
  require_none : List String
  priority : Int
deriving DecidableEq, Repr

/-- The `STATE_RULES` table of `state_rules.py`, in declaration order. -/
def STATE_RULES : List Rule := [
  { state := "DEAD",
    require_all := ["TO_LOBBY_BUTTON"],
    require_none := [],
    priority := 100 },
  { state := "IN_RUN",
    require_all := ["END_RUN_BUTTON", "AUTO_GREEN_ICON"],
    require_none := ["TO_LOBBY_BUTTON", "SWITCH_FISH_ICON", "LEAVE_BUTTON", "LEAVE_BUTTON_CONFIRM"],
    priority := 80 },
  { state := "MENU",
    require_all := ["LEAVE_BUTTON"],
    require_none := [],
    priority := 60 },
  { state := "NET_REVEAL",
    require_all := [],
    require_none := ["TO_LOBBY_BUTTON", "END_RUN_BUTTON", "AUTO_GREEN_ICON"],
    priority := 50 },
  { state := "STUCK_IN_LOBBY",
    require_all := ["SWITCH_FISH_ICON", "END_RUN_BUTTON"],
    require_none := ["TO_LOBBY_BUTTON"],
    priority := 40 },
  { state := "MENU_CONFIRMATION",
    require_all := ["LEAVE_BUTTON_CONFIRM"],
    require_none := [],
    priority := 30 },
  { state := "GAME_CLOSED",
    require_all := [],
    require_none := ["TO_LOBBY_BUTTON", "END_RUN_BUTTON", "AUTO_GREEN_ICON", "SWITCH_FISH_ICON", "LEAVE_BUTTON", "LEAVE_BUTTON_CONFIRM"],
    priority := 20 },
  { state := "DISCONNECTED",
    require_all := ["DISCONNECTED_ICON"],
    require_none := [],
    priority := 90 },
  { state := "HOME_SCREEN",
    require_all := ["HOME_SCREEN_ICON"],
    require_none := ["TO_LOBBY_BUTTON", "END_RUN_BUTTON", "AUTO_GREEN_ICON", "SWITCH_FISH_ICON", "LEAVE_BUTTON", "LEAVE_BUTTON_CONFIRM"],
    priority := 70 },
  { state := "FISH_MENU",
    require_all := ["FISH_MENU_SCREEN"],
    require_none := ["END_RUN_BUTTON", "TO_LOBBY_BUTTON"],
    priority := 65 },
  { state := "SERVER_MENU",
    require_all := ["SERVER_MENU"],
    require_none := ["END_RUN_BUTTON", "TO_LOBBY_BUTTON", "SWITCH_FISH_ICON"],
    priority := 55 },
  { state := "AUTO_STOPPED",
    require_all := ["AUTO_RED_ICON", "END_RUN_BUTTON"],
    require_none := ["TO_LOBBY_BUTTON", "LEAVE_BUTTON", "LEAVE_BUTTON_CONFIRM"],
    priority := 75 },
  { state := "LEAVE_MENU",
    require_all := ["LEAVE_BUTTON_CONFIRM"],
    require_none := [],
    priority := 35 },
  { state := "FISH_MENU_SCROLLED_DOWN",
    require_all := ["FISH_MENU_SCROLLED_DOWN"],
    require_none := ["END_RUN_BUTTON", "TO_LOBBY_BUTTON"],
    priority := 45 },
  { state := "PRIVATE_SERVERS_MENU",
    require_all := ["PRIVATE_SERVERS"],
    require_none := [],
    priority := 50 }
]

/-! ## state_machine.py -/

/-- Stable descending insertion: `r` is placed in front of the first
element whose priority is less than or equal to `r`'s.  In the insertion
sort below the list already holds only elements declared after `r`, so a
tie keeps `r` (the earlier-declared rule) first — the stability guarantee
of Python's `sorted(..., reverse=True)`. -/
def insertRuleDesc (r : Rule) : List Rule → List Rule
  | [] => [r]
  | y :: ys => if y.priority ≤ r.priority then r :: y :: ys else y :: insertRuleDesc r ys

/-- Embedding of `sorted(STATE_RULES, key=priority, reverse=True)`
(stable). -/
def sortRulesDesc : List Rule → List Rule
  | [] => []
  | r :: rs => insertRuleDesc r (sortRulesDesc rs)

/-- `results.get(name) and results[name].found`: absent names count as
not found (a present dataclass instance is always truthy). -/
def foundIn (results : Results) (n : String) : Bool :=
  match results n with
  | none => false
  | some r => r.found

/-- The body test of the `resolve_state` loop: `ok_all and ok_none`. -/
def ruleMatches (results : Results) (r : Rule) : Bool :=
  (r.require_all.all fun n => foundIn results n) &&
  (r.require_none.all fun n => !(foundIn results n))

/-- The `for rule in rules` loop of `resolve_state`: the state of the
first matching rule, else `STATE_UNKNOWN`. -/
def firstMatch : List Rule → Results → String
  | [], _ => STATE_UNKNOWN
  | r :: rs, results => if ruleMatches results r then r.state else firstMatch rs results

/-- Embedding of `resolve_state` from `state_machine.py`. -/
def resolve_state (results : Results) : String :=
  firstMatch (sortRulesDesc STATE_RULES) results

/-! ## Spec-side rendering of the claimed resolution semantics

`specSatisfied` renders the claim's wording: a rule is satisfied when every
name in `require_all` maps to a result with `found=true`, and every name
in `require_none` is either absent from the map or maps to a result with
`found=false`. -/

def specSatisfied (results : Results) (r : Rule) : Bool :=
  (r.require_all.all fun n =>
    match results n with
    | some rec => rec.found
    | none => false) &&
  (r.require_none.all fun n =>
    match results n with
    | some rec => !rec.found
    | none => true)

/-- The claim's description of the traversal: the state of the first rule
of the given (already ordered) table that is satisfied. -/
def specResolve (ordered : List Rule) (results : Results) : String :=
  match ordered.find? (fun r => specSatisfied results r) with
  | some r => r.state
  | none => STATE_UNKNOWN

/-- Concrete detector-result map for the priority-tie scenario: only the
`PRIVATE_SERVERS` detector is found, which satisfies both priority-50
rules (`NET_REVEAL` and `PRIVATE_SERVERS_MENU`) and no higher-priority
rule. -/
def resultsTie : Results := fun n =>
  if n = "PRIVATE_SERVERS" then
    some { name := "PRIVATE_SERVERS", kind := "image", found := true }
  else none

/-! ## Detector engine, OCR side (`main.py`)

`_first_ocr_hit_containing` sorts the hits by confidence descending
(Python's stable `sorted(..., reverse=True)`), skips hits below
`min_conf`, and returns the first hit whose lowercased text has the
lowercased token as a substring. -/

/-- `pat` is a leading segment of `s` (character lists). -/
def startsWithChars : List Char → List Char → Bool
  | [], _ => true
  | _ :: _, [] => false
  | a :: as, b :: bs => a == b && startsWithChars as bs

/-- `pat` occurs contiguously inside `s`: the Python `in` operator on
strings, over character lists. -/
def hasSubChars (pat : List Char) : List Char → Bool
  | [] => startsWithChars pat []
  | c :: cs => startsWithChars pat (c :: cs) || hasSubChars pat cs

/-- Python's `pat in s` for strings. -/
def strContains (pat s : String) : Bool :=
  hasSubChars pat.data s.data

/-- ASCII lowercasing of one character (Python's `str.lower()` on the
ASCII strings the detectors use). -/
def charLower (c : Char) : Char :=
  if 65 ≤ c.toNat ∧ c.toNat ≤ 90 then Char.ofNat (c.toNat + 32) else c

/-- Python's `s.lower()` (ASCII model). -/
def strLower (s : String) : String :=
  ⟨s.data.map charLower⟩

/-- The loop-body test of `_first_ocr_hit_containing`: the hit is skipped
when its confidence is below `min_conf`, and is returned when the
(pre-lowered) token occurs in its lowercased text. -/
def hitQualifies (token_l : String) (min_conf : Int) (h : OcrHit) : Bool :=
  if h.conf < min_conf then false
  else strContains token_l (strLower h.text)

/-- Stable descending insertion by confidence (ties keep the inserted,
earlier-encountered hit first), the embedding of Python's stable
`sorted(hits, key=conf, reverse=True)`. -/
def insertHitDesc (x : OcrHit) : List OcrHit → List OcrHit
  | [] => [x]
  | y :: ys => if y.conf ≤ x.conf then x :: y :: ys else y :: insertHitDesc x ys

/-- Stable insertion sort by confidence, descending. -/
def sortHitsDesc : List OcrHit → List OcrHit
  | [] => []
  | x :: xs => insertHitDesc x (sortHitsDesc xs)

/-- The scan loop of `_first_ocr_hit_containing`: first qualifying hit in
the (sorted) list. -/
def firstQualifying (token_l : String) (min_conf : Int) : List OcrHit → Option OcrHit
  | [] => none
  | h :: t => if hitQualifies token_l min_conf h then some h else firstQualifying token_l min_conf t

/-- Embedding of `_first_ocr_hit_containing` from `main.py`. -/
def first_ocr_hit_containing (hits : List OcrHit) (token : String) (min_conf : Int) :
    Option OcrHit :=
  firstQualifying (strLower token) min_conf (sortHitsDesc hits)

/-- Spec-side one-step selection: the earlier hit `h` beats the best of
the rest exactly when it qualifies and its confidence is at least as
high (equal confidences go to the first-encountered hit). -/
def combineBest (token_l : String) (min_conf : Int) (h : OcrHit) :
    Option OcrHit → Option OcrHit
  | none => if hitQualifies token_l min_conf h then some h else none
  | some b =>
    if hitQualifies token_l min_conf h && decide (b.conf ≤ h.conf) then some h else some b

/-- Spec-side rendering of the claimed OCR selection: among the hits that
qualify (confidence at least `min_conf`, case-insensitive substring
match), the highest-confidence one, ties broken by first-encountered
position in the input list. -/
def bestQualifying (token_l : String) (min_conf : Int) : List OcrHit → Option OcrHit
  | [] => none
  | h :: t => combineBest token_l min_conf h (bestQualifying token_l min_conf t)

/-! ## Template bank and image detectors (`main.py`)

The opencv image type is abstracted to its shape plus an identity tag;
`cv2.imread` becomes a `decode` oracle (`none` = unreadable file) and
`cv2.matchTemplate`/`minMaxLoc` a `matchT` oracle that may fail (the
"matching backend exception" of the spec).  Match scores are floats in
the source, used only through their ordering; they are embedded as
`Int`. -/

/-- A decoded image: its shape (`shape[:2] = (h, w)`) plus an identity
tag distinguishing distinct in-memory objects. -/
structure Img where
  w : Int
  h : Int
  tag : Nat
deriving DecidableEq, Repr

/-- The cache of `TemplateBank` (`self._cache`): path → decoded image. -/
abbrev Bank := List (String × Img)

/-- The `cv2.imread` oracle: `none` models an unreadable file. -/
abbrev Decode := String → Option Img

/-- The `match_template_once` oracle: frame → template →
`(max_score, x, y)`, or a raised backend exception. -/
abbrev MatchFn := Img → Img → Except String (Int × Int × Int)

/-- Bounding box `(x, y, w, h)`. -/
abbrev BBox := Int × Int × Int × Int

/-- Embedding of `TemplateBank.get`: return the cached image, else decode
and cache it; an unreadable file raises (and is not cached). -/
def bankGet (decode : Decode) (b : Bank) (path : String) : Except String Img × Bank :=
  match b.lookup path with
  | some img => (.ok img, b)
  | none =>
    match decode path with
    | none => (.error ("Template could not be read: " ++ path), b)
    | some img => (.ok img, (path, img) :: b)

/-- Embedding of `TemplateBank.clear`. -/
def bankClear (_b : Bank) : Bank := []

/-- The candidate loop of `find_any_template_in_frame`, threading the
bank and the running best `(score, bbox, path)`; a raised error is
propagated together with the bank as mutated so far. -/
def findAnyLoop (decode : Decode) (matchT : MatchFn) (frame : Img) (threshold : Int) :
    List String → Bank → Int → Option BBox → Option String →
    Bank × Except String (Option (BBox × ExtraInfo))
  | [], b, best_score, best_bbox, best_path =>
    (b, .ok (match best_bbox with
      | some bb =>
        if threshold ≤ best_score then some (bb, ExtraInfo.matchInfo best_path best_score)
        else none
      | none => none))
  | path :: ps, b, best_score, best_bbox, best_path =>
    match bankGet decode b path with
    | (.error e, b2) => (b2, .error e)
    | (.ok templ, b2) =>
      match matchT frame templ with
      | .error e => (b2, .error e)
      | .ok (score, x, y) =>
        if best_score < score then
          findAnyLoop decode matchT frame threshold ps b2 score
            (some (x, y, templ.w, templ.h)) (some path)
        else
          findAnyLoop decode matchT frame threshold ps b2 best_score best_bbox best_path

/-- Embedding of `find_any_template_in_frame` (initial best score is the
sentinel `-1.0`). -/
def find_any_template_in_frame (decode : Decode) (matchT : MatchFn) (frame : Img)
    (paths : List String) (bank : Bank) (threshold : Int) :
    Bank × Except String (Option (BBox × ExtraInfo)) :=
  findAnyLoop decode matchT frame threshold paths bank (-1) none none

/-- Bank-free counterpart of `TemplateBank.get`: what the decode oracle
says, with the same raised message. -/
def pureGet (decode : Decode) (path : String) : Except String Img :=
  match decode path with
  | none => .error ("Template could not be read: " ++ path)
  | some img => .ok img

/-- Bank-free counterpart of the `find_any_template_in_frame` loop. -/
def pureFindLoop (decode : Decode) (matchT : MatchFn) (frame : Img) (threshold : Int) :
    List String → Int → Option BBox → Option String →
    Except String (Option (BBox × ExtraInfo))
  | [], best_score, best_bbox, best_path =>
    .ok (match best_bbox with
      | some bb =>
        if threshold ≤ best_score then some (bb, ExtraInfo.matchInfo best_path best_score)
        else none
      | none => none)
  | path :: ps, best_score, best_bbox, best_path =>
    match pureGet decode path with
    | .error e => .error e
    | .ok templ =>
      match matchT frame templ with
      | .error e => .error e
      | .ok (score, x, y) =>
        if best_score < score then
          pureFindLoop decode matchT frame threshold ps score
            (some (x, y, templ.w, templ.h)) (some path)
        else
          pureFindLoop decode matchT frame threshold ps best_score best_bbox best_path

/-- Bank-free counterpart of `find_any_template_in_frame`. -/
def pureFindAny (decode : Decode) (matchT : MatchFn) (frame : Img)
    (paths : List String) (threshold : Int) :
    Except String (Option (BBox × ExtraInfo)) :=
  pureFindLoop decode matchT frame threshold paths (-1) none none

/-- A detector spec from the registry: the `kind` discrimination of
`run_detector` as a sum type (OCR token rule or image template rule). -/
inductive DetectorCfg where
  | ocr (token : String) (min_conf : Int)
  | image (paths : List String) (confidence : Int)
deriving DecidableEq, Repr

/-- Embedding of `run_detector` from `main.py`.  The image branch wraps
the template search in `try/except`: a raised error becomes
`found=false` with the error note in `extra` (the bank keeps the entries
cached before the failure, as in the source). -/
def run_detector (decode : Decode) (matchT : MatchFn) (name : String) (cfg : DetectorCfg)
    (hits : List OcrHit) (frame : Img) (bank : Bank) : DetectResult × Bank :=
  match cfg with
  | .ocr token min_conf =>
    (match first_ocr_hit_containing hits token min_conf with
     | none => { name := name, kind := "ocr", found := false }
     | some h =>
        { name := name, kind := "ocr", found := true, bbox := some h.bbox,
          text := some h.text, conf := some h.conf,
          extra := some (.ocrInfo token min_conf) }, bank)
  | .image paths confidence =>
    match find_any_template_in_frame decode matchT frame paths bank confidence with
    | (b2, .error e) =>
      ({ name := name, kind := "image", found := false, extra := some (.err e) }, b2)
    | (b2, .ok none) => ({ name := name, kind := "image", found := false }, b2)
    | (b2, .ok (some (bb, ex))) =>
      ({ name := name, kind := "image", found := true, bbox := some bb,
         extra := some ex }, b2)

/-- Embedding of `run_detectors` from `main.py`: one result per name, in
order, threading the shared template bank. -/
def run_detectors (decode : Decode) (matchT : MatchFn) (names : List String)
    (hits : List OcrHit) (frame : Img) (bank : Bank) (dict : String → DetectorCfg) :
    List (String × DetectResult) × Bank :=
  match names with
  | [] => ([], bank)
  | n :: ns =>
    let rb := run_detector decode matchT n (dict n) hits frame bank
    let rest := run_detectors decode matchT ns hits frame rb.2 dict
    ((n, rb.1) :: rest.1, rest.2)

/-- Bank-free per-detector result: what `run_detector` yields for a
detector regardless of the (coherent) cache contents. -/
def run_detector_pure (decode : Decode) (matchT : MatchFn) (name : String)
    (cfg : DetectorCfg) (hits : List OcrHit) (frame : Img) : DetectResult :=
  match cfg with
  | .ocr token min_conf =>
    match first_ocr_hit_containing hits token min_conf with
    | none => { name := name, kind := "ocr", found := false }
    | some h =>
      { name := name, kind := "ocr", found := true, bbox := some h.bbox,
        text := some h.text, conf := some h.conf,
        extra := some (.ocrInfo token min_conf) }
  | .image paths confidence =>
    match pureFindAny decode matchT frame paths confidence with
    | .error e => { name := name, kind := "image", found := false, extra := some (.err e) }
    | .ok none => { name := name, kind := "image", found := false }
    | .ok (some (bb, ex)) =>
      { name := name, kind := "image", found := true, bbox := some bb, extra := some ex }

/-- The template-bank cache is coherent with the decode oracle: every
cached entry is what decoding its path yields.  The empty cache is
coherent, and every bank operation preserves coherence. -/
def Coherent (decode : Decode) (b : Bank) : Prop :=
  ∀ p i, b.lookup p = some i → decode p = some i

/-! ## window_manager.py — geometry helpers -/

/-- A rectangle `(left, top, right, bottom)` in screen coordinates. -/
structure Rect where
  l : Int
  t : Int
  r : Int
  b : Int
deriving DecidableEq, Repr

/-- Embedding of `rect_center` (Python `//` is floor division). -/
def rect_center (rect : Rect) : Int × Int :=
  (rect.l + (rect.r - rect.l).fdiv 2, rect.t + (rect.b - rect.t).fdiv 2)

/-- Embedding of `point_in_rect`. -/
def point_in_rect (x y : Int) (rect : Rect) : Bool :=
  (decide (rect.l ≤ x) && decide (x < rect.r)) &&
  (decide (rect.t ≤ y) && decide (y < rect.b))

/-- Embedding of `rect_area`. -/
def rect_area (rect : Rect) : Int :=
  max 0 (rect.r - rect.l) * max 0 (rect.b - rect.t)

/-- Embedding of `rect_intersect`. -/
def rect_intersect (a b : Rect) : Rect :=
  let l := max a.l b.l
  let t := max a.t b.t
  let r := min a.r b.r
  let btm := min a.b b.b
  if r ≤ l ∨ btm ≤ t then ⟨0, 0, 0, 0⟩ else ⟨l, t, r, btm⟩

/-- Embedding of `window_is_on_monitor`, over the window rectangle the
win32 read returns. -/
def window_is_on_monitor (win_rect monitor_rect : Rect) : Bool :=
  let c := rect_center win_rect
  point_in_rect c.1 c.2 monitor_rect

/-- Stable descending insertion for overlap areas. -/
def insertIntDesc (x : Int) : List Int → List Int
  | [] => [x]
  | y :: ys => if y ≤ x then x :: y :: ys else y :: insertIntDesc x ys

/-- Embedding of `sorted(overlaps, reverse=True)`. -/
def sortIntDesc : List Int → List Int
  | [] => []
  | x :: xs => insertIntDesc x (sortIntDesc xs)

/-- Embedding of `window_looks_spanning_monitors`: spanning when the
second-best monitor overlap exceeds 15% of the best one (the float
factor `0.15` is the exact rational `15/100`). -/
def window_looks_spanning_monitors (win_rect : Rect) (monitors : List Rect) : Bool :=
  let overlaps := monitors.map fun m => rect_area (rect_intersect win_rect m)
  match sortIntDesc overlaps with
  | best :: second :: _ =>
    decide (0 < best) && decide ((15 : ℚ) / 100 * (best : ℚ) < (second : ℚ))
  | _ => false

/-- Embedding of `looks_fullscreen_like` from `window_manager.py`: the
window covers strictly more than `0.95` of the target monitor in both
dimensions (the float cover ratios become exact rational division; at
the claims' inputs the float comparison of the source agrees with the
exact one). -/
def looks_fullscreen_like (win_rect monitor_rect : Rect) : Bool :=
  let mw := monitor_rect.r - monitor_rect.l
  let mh := monitor_rect.b - monitor_rect.t
  let ww := win_rect.r - win_rect.l
  let wh := win_rect.b - win_rect.t
  if mw ≤ 0 ∨ mh ≤ 0 then false
  else
    decide ((95 : ℚ) / 100 < (ww : ℚ) / (mw : ℚ)) &&
    decide ((95 : ℚ) / 100 < (wh : ℚ) / (mh : ℚ))

/-! ## window_manager.py — enforcement -/

/-- Snapshot built by `get_window_status`. -/
structure WindowStatus where
  title : String
  win_rect : Rect
  client_size : Int × Int
  is_foreground : Bool
  is_on_target_monitor : Bool
  looks_spanning_monitors : Bool
  looks_fullscreen_like : Bool
deriving DecidableEq, Repr

/-- The `EnforceConfig` dataclass (timing fields, which only feed
`time.sleep`, are omitted). -/
structure EnforceConfig where
  title_contains : String
  monitor_index : Int := 1
  target_client_w : Int := 1280
  target_client_h : Int := 720
  pad_left : Int := 40
  pad_top : Int := 40
  try_alt_enter_to_escape_fullscreen : Bool := true
  size_tolerance_px : Int := 2
deriving Repr

/-- The win32/mss surface `ensure_window` runs against, for a fixed
found target window over an abstract environment `S`: pure reads are
functions of `S` ("no environmental change" = the reads depend on `S`
alone), corrective calls are state transformers. -/
structure WinAPI (S : Type) where
  getWindowText : S → String
  getWindowRect : S → Rect
  getClientRect : S → Rect
  foregroundIsTarget : S → Bool
  monitors : S → List Rect
  monitorRect : Int → S → Rect
  activate : S → S
  altEnter : S → S
  setWindowPosMove : Int → Int → S → S
  setWindowPosResize : Int → Int → Int → Int → S → S

/-- Embedding of `get_client_size`. -/
def get_client_size (client_rect : Rect) : Int × Int :=
  (client_rect.r - client_rect.l, client_rect.b - client_rect.t)

/-- Embedding of `get_window_status`: a pure read of the environment. -/
def get_window_status {S : Type} (api : WinAPI S) (cfg : EnforceConfig) (s : S) :
    WindowStatus :=
  let wr := api.getWindowRect s
  let mon := api.monitorRect cfg.monitor_index s
  { title := api.getWindowText s
    win_rect := wr
    client_size := get_client_size (api.getClientRect s)
    is_foreground := api.foregroundIsTarget s
    is_on_target_monitor := window_is_on_monitor wr mon
    looks_spanning_monitors := window_looks_spanning_monitors wr (api.monitors s)
    looks_fullscreen_like := looks_fullscreen_like wr mon }

/-- The corrective operations `ensure_window` can perform. -/
inductive WinOp where
  | activate
  | altEnterToggle
  | move
  | resize
deriving DecidableEq, Repr

/-- Embedding of `try_alt_enter_toggle`: activates the window, then sends
the Alt+Enter hotkey (skipped entirely when disabled in the config). -/
def try_alt_enter_toggle {S : Type} (api : WinAPI S) (cfg : EnforceConfig) (s : S) :
    S × List WinOp :=
  if cfg.try_alt_enter_to_escape_fullscreen then
    (api.altEnter (api.activate s), [WinOp.activate, WinOp.altEnterToggle])
  else (s, [])

/-- Result of one `ensure_window` invocation: final environment, the
returned status snapshot, and the corrective operations performed. -/
structure EnforceResult (S : Type) where
  state : S
  status : WindowStatus
  trace : List WinOp
deriving Repr

/-- The `size_ok` test of step 4 of `ensure_window`. -/
def size_ok (cfg : EnforceConfig) (client_size : Int × Int) : Bool :=
  decide (|client_size.1 - cfg.target_client_w| ≤ cfg.size_tolerance_px) &&
  decide (|client_size.2 - cfg.target_client_h| ≤ cfg.size_tolerance_px)

/-- Embedding of `ensure_window` from `window_manager.py`, for a found
target window: the four guarded corrective steps, each preceded by a
fresh status read, followed by the final status snapshot. -/
def ensure_window {S : Type} (api : WinAPI S) (cfg : EnforceConfig) (s0 : S) :
    EnforceResult S :=
  let st0 := get_window_status api cfg s0
  let p1 : S × List WinOp :=
    if st0.is_foreground then (s0, []) else (api.activate s0, [WinOp.activate])
  let s1 := p1.1
  let st1 := get_window_status api cfg s1
  let p2 : S × List WinOp :=
    if st1.looks_fullscreen_like then try_alt_enter_toggle api cfg s1 else (s1, [])
  let s2 := p2.1
  let st2 := get_window_status api cfg s2
  let p3 : S × List WinOp :=
    if !st2.is_on_target_monitor || st2.looks_spanning_monitors then
      let mon := api.monitorRect cfg.monitor_index s2
      (api.setWindowPosMove (mon.l + cfg.pad_left) (mon.t + cfg.pad_top) s2, [WinOp.move])
    else (s2, [])
  let s3 := p3.1
  let st3 := get_window_status api cfg s3
  let p4 : S × List WinOp :=
    if size_ok cfg st3.client_size then (s3, [])
    else
      let mon := api.monitorRect cfg.monitor_index s3
      (api.setWindowPosResize (mon.l + cfg.pad_left) (mon.t + cfg.pad_top)
        cfg.target_client_w cfg.target_client_h s3, [WinOp.resize])
  let s4 := p4.1
  { state := s4
    status := get_window_status api cfg s4
    trace := p1.2 ++ p2.2 ++ p3.2 ++ p4.2 }

/-- The window state `ensure_window` aims for: every corrective step's
guard condition is false. -/
def Compliant (cfg : EnforceConfig) (st : WindowStatus) : Prop :=
  st.is_foreground = true ∧
  st.looks_fullscreen_like = false ∧
  st.is_on_target_monitor = true ∧
  st.looks_spanning_monitors = false ∧
  size_ok cfg st.client_size = true

/-! ## main.py — action dispatch of `_scan_once` -/

/-- Embedding of `bbox_center` (`//` is floor division). -/
def bbox_center (bbox : BBox) : Int × Int :=
  (bbox.1 + bbox.2.2.1.fdiv 2, bbox.2.1 + bbox.2.2.2.fdiv 2)

/-- The `HOME_SCREEN` action branch of `_scan_once` (lines 871-876 of
`main.py`): the guard reads the `HOME_SCREEN_ICON` result, the clicked
bbox is read from the `HOME_SCREEN_GAME_ICON` result.  A missing dict
key or a `bbox_center(None)` call raises (caught by the per-cycle
handler); `.ok none` is the branch falling through without a click. -/
def home_screen_branch (results : Results) : Except String (Option (Int × Int)) :=
  match results "HOME_SCREEN_ICON" with
  | none => .error "KeyError: HOME_SCREEN_ICON"
  | some r =>
    if r.found && r.bbox.isSome then
      match results "HOME_SCREEN_GAME_ICON" with
      | none => .error "KeyError: HOME_SCREEN_GAME_ICON"
      | some g =>
        match g.bbox with
        | none => .error "TypeError: bbox_center(None)"
        | some bb => .ok (some (bbox_center bb))
    else .ok none

/-- The branch arms of the state-conditioned dispatch chain of
`_scan_once`, in source order (each stands for that branch's body). -/
inductive ScanAction where
  | deadClick
  | autoStoppedClick
  | inRunClick
  | disconnectedClick
  | homeScreenClick
  | fishMenuAct
  | fishMenuScrolledAct
  | stuckInLobbyAct
  | menuClick
  | leaveMenuClick
  | privateServersClick
  | resetTimer
deriving DecidableEq, Repr

/-- Python attribute access `states.<n>`: the value for a defined
constant, an `AttributeError` otherwise. -/
def getattrStates (n : String) : Except String String :=
  match statesAttr n with
  | some v => .ok v
  | none => .error ("AttributeError: module states has no attribute " ++ n)

/-- The `if current_state == states.STATE_DEAD: ... elif ...` chain of
`_scan_once` (lines 831-956 of `main.py`), with each branch condition
evaluating its `states` attribute in source order.  The trailing `else`
branch is the timer reset. -/
def dispatch_action (current_state : String) : Except String ScanAction := do
  let sDead ← getattrStates "STATE_DEAD"
  if current_state = sDead then return ScanAction.deadClick
  let sAuto ← getattrStates "STATE_AUTO_STOPPED"
  if current_state = sAuto then return ScanAction.autoStoppedClick
  let sInRun ← getattrStates "STATE_IN_RUN"
  if current_state = sInRun then return ScanAction.inRunClick
  let sDisc ← getattrStates "STATE_DISCONNECTED"
  if current_state = sDisc then return ScanAction.disconnectedClick
  let sHome ← getattrStates "STATE_HOME_SCREEN"
  if current_state = sHome then return ScanAction.homeScreenClick
  let sFish ← getattrStates "STATE_FISH_MENU"
  if current_state = sFish then return ScanAction.fishMenuAct
  let sFishDown ← getattrStates "STATE_FISH_MENU_SCROLLED_DOWN"
  if current_state = sFishDown then return ScanAction.fishMenuScrolledAct
  let sStuck ← getattrStates "STATE_STUCK_IN_LOBBY"
  if current_state = sStuck then return ScanAction.stuckInLobbyAct
  let sMenu ← getattrStates "STATE_MENU"
  if current_state = sMenu then return ScanAction.menuClick
  let sLeave ← getattrStates "STATE_LEAVE_MENU"
  if current_state = sLeave then return ScanAction.leaveMenuClick
  let sPriv ← getattrStates "STATE_PRIVATE_SERVERS_MENU"
  if current_state = sPriv then return ScanAction.privateServersClick
  return ScanAction.resetTimer

/-- The per-cycle `except` handler of `_scan_once`: a raised error is
caught and logged, a completed dispatch yields its action. -/
def scan_dispatch_outcome (current_state : String) : ScanAction ⊕ String :=
  match dispatch_action current_state with
  | .ok a => Sum.inl a
  | .error e => Sum.inr ("[error] " ++ e)

/-! ## Concrete inputs used by the witness theorems -/

/-- Result map where both home-screen detectors are found with distinct
bounding boxes. -/
def resultsHome : Results := fun n =>
  if n = "HOME_SCREEN_ICON" then
    some { name := "HOME_SCREEN_ICON", kind := "image", found := true,
           bbox := some (0, 0, 2, 2) }
  else if n = "HOME_SCREEN_GAME_ICON" then
    some { name := "HOME_SCREEN_GAME_ICON", kind := "image", found := true,
           bbox := some (100, 200, 10, 20) }
  else none

/-- Decode oracle that can read `good.png` and nothing else. -/
def decodeW : Decode := fun p => if p = "good.png" then some ⟨3, 4, 0⟩ else none

/-- Matching oracle that always reports score 1 at the origin. -/
def matchW : MatchFn := fun _ _ => .ok (1, 0, 0)

/-- Detector registry with one working and one broken image detector. -/
def dictW : String → DetectorCfg := fun n =>
  if n = "B" then .image ["bad.png"] 0 else .image ["good.png"] 0

/-- An arbitrary captured frame. -/
def frameW : Img := ⟨100, 100, 99⟩

/-- Environment whose reads describe an already-compliant window:
foreground, small relative to the monitor, centered on it, single
monitor, client area exactly at the target size. -/
def apiW : WinAPI Unit :=
  { getWindowText := fun _ => "Roblox"
    getWindowRect := fun _ => ⟨40, 40, 140, 140⟩
    getClientRect := fun _ => ⟨0, 0, 1280, 720⟩
    foregroundIsTarget := fun _ => true
    monitors := fun _ => [⟨0, 0, 1000, 1000⟩]
    monitorRect := fun _ _ => ⟨0, 0, 1000, 1000⟩
    activate := id
    altEnter := id
    setWindowPosMove := fun _ _ => id
    setWindowPosResize := fun _ _ _ _ => id }

/-- Default enforcement config for the witness environment. -/
def cfgW : EnforceConfig := { title_contains := "Roblox" }

/-!
# Theorems

Lemmas shared between claims come first, then one theorem per claim (with
a witness theorem where the claim theorem has hypotheses).
-/

/-! ## State machine lemmas -/

lemma ruleMatches_eq_specSatisfied (results : Results) (r : Rule) :
    ruleMatches results r = specSatisfied results r := by
  unfold ruleMatches specSatisfied
  have h1 : (fun n => foundIn results n) =
      (fun n => match results n with
        | some rec => rec.found
        | none => false) := by
    funext n
    unfold foundIn
    cases results n <;> rfl
  have h2 : (fun n => !(foundIn results n)) =
      (fun n => match results n with
        | some rec => !rec.found
        | none => true) := by
    funext n
    unfold foundIn
    cases results n <;> rfl
  rw [h1, h2]

lemma firstMatch_eq_specResolve (rs : List Rule) (results : Results) :
    firstMatch rs results = specResolve rs results := by
  induction rs with
  | nil => rfl
  | cons r rs ih =>
    by_cases h : ruleMatches results r
    · have hs : specSatisfied results r = true := by
        rw [← ruleMatches_eq_specSatisfied]; exact h
      simp [firstMatch, specResolve, h, List.find?, hs]
    · have hs : specSatisfied results r = false := by
        rw [← ruleMatches_eq_specSatisfied]; simpa using h
      simp [firstMatch, specResolve, h, List.find?, hs] at ih ⊢
      exact ih

lemma firstMatch_cons_ne (r : Rule) (rs : List Rule) (results : Results) (s : String)
    (h1 : r.state ≠ s) (h2 : firstMatch rs results ≠ s) :
    firstMatch (r :: rs) results ≠ s := by
  by_cases h : ruleMatches results r <;> simp [firstMatch, h, h1, h2]

lemma firstMatch_ne_of_forall (rs : List Rule) (results : Results) (s : String)
    (h1 : ∀ r ∈ rs, r.state ≠ s) (h2 : STATE_UNKNOWN ≠ s) :
    firstMatch rs results ≠ s := by
  induction rs with
  | nil => exact h2
  | cons r rs ih =>
    exact firstMatch_cons_ne r rs results s (h1 r (by simp))
      (ih fun r' hr' => h1 r' (by simp [hr']))

lemma ruleMatches_congr (results : Results) (r1 r2 : Rule)
    (ha : r1.require_all = r2.require_all) (hn : r1.require_none = r2.require_none) :
    ruleMatches results r1 = ruleMatches results r2 := by
  unfold ruleMatches
  rw [ha, hn]

lemma sortedRules_eq : sortRulesDesc STATE_RULES =
    STATE_RULES[0] :: STATE_RULES[7] :: STATE_RULES[1] :: STATE_RULES[11] ::
    STATE_RULES[8] :: STATE_RULES[9] :: STATE_RULES[2] :: STATE_RULES[10] ::
    STATE_RULES[3] :: STATE_RULES[14] :: STATE_RULES[13] :: STATE_RULES[4] ::
    STATE_RULES[12] :: STATE_RULES[5] :: [STATE_RULES[6]] := by decide

/-! ## Claim C1 -/

/-- C1: `resolve_state` traverses the rule table in priority-descending
order with ties broken by declaration order (the two priority-50 rules
appear as `NET_REVEAL` then `PRIVATE_SERVERS_MENU`), the code's rule test
coincides with the claim's satisfaction condition (absence treated as not
found on both sides), resolution returns the state of the first satisfied
rule in that order, and on the concrete tie input where both priority-50
rules are satisfied and no higher-priority rule is, the earlier-declared
`NET_REVEAL` is returned. -/
theorem resolve_state_priority_order_and_tiebreak :
    ((sortRulesDesc STATE_RULES).map (fun r => r.state) =
      ["DEAD", "DISCONNECTED", "IN_RUN", "AUTO_STOPPED", "HOME_SCREEN", "FISH_MENU",
       "MENU", "SERVER_MENU", "NET_REVEAL", "PRIVATE_SERVERS_MENU",
       "FISH_MENU_SCROLLED_DOWN", "STUCK_IN_LOBBY", "LEAVE_MENU",
       "MENU_CONFIRMATION", "GAME_CLOSED"]) ∧
    ((sortRulesDesc STATE_RULES).map (fun r => r.priority) =
      [100, 90, 80, 75, 70, 65, 60, 55, 50, 50, 45, 40, 35, 30, 20]) ∧
    (∀ results r, ruleMatches results r = specSatisfied results r) ∧
    (∀ results, resolve_state results = specResolve (sortRulesDesc STATE_RULES) results) ∧
    (((sortRulesDesc STATE_RULES).filter (fun r => specSatisfied resultsTie r)).map
      (fun r => r.state) = ["NET_REVEAL", "PRIVATE_SERVERS_MENU", "GAME_CLOSED"]) ∧
    resolve_state resultsTie = "NET_REVEAL" :=
  ⟨by decide, by decide, ruleMatches_eq_specSatisfied,
    fun results => firstMatch_eq_specResolve _ _, by decide, by decide⟩

/-! ## Claim C2 -/

/-- C2: on a result map where no detector at all is found, `resolve_state`
returns `"NET_REVEAL"`, the state of a fallback rule (empty `require_all`,
all of whose `require_none` names are not found); resolution is a total
function and never yields the empty string. -/
theorem resolve_state_fallback_when_nothing_found (results : Results) :
    ((∀ n, foundIn results n = false) →
      resolve_state results = "NET_REVEAL" ∧
      STATE_RULES[3] ∈ STATE_RULES ∧
      STATE_RULES[3].state = "NET_REVEAL" ∧
      STATE_RULES[3].require_all = ([] : List String) ∧
      (∀ n ∈ STATE_RULES[3].require_none, foundIn results n = false)) ∧
    resolve_state results ≠ "" := by
  constructor
  · intro h
    refine ⟨?_, by decide, by decide, by decide, fun n _ => h n⟩
    rw [resolve_state, sortedRules_eq]
    simp only [firstMatch, ruleMatches, h]
    decide
  · rw [resolve_state]
    exact firstMatch_ne_of_forall _ _ _ (by decide) (by decide)

/-- Witness for C2 at the empty result map. -/
theorem resolve_state_fallback_when_nothing_found_witness :
    resolve_state (fun _ => none) = "NET_REVEAL" ∧ resolve_state (fun _ => none) ≠ "" :=
  ⟨((resolve_state_fallback_when_nothing_found (fun _ => none)).1 fun _ => rfl).1,
    (resolve_state_fallback_when_nothing_found (fun _ => none)).2⟩

/-! ## Claim C10 -/

/-- C10: `resolve_state` can never return `"MENU_CONFIRMATION"`: the
`LEAVE_MENU` rule has the same `require_all`/`require_none` conditions and
strictly higher priority, so it (or an even earlier rule) always claims
any input that would satisfy the `MENU_CONFIRMATION` rule. -/
theorem resolve_state_never_menu_confirmation (results : Results) :
    resolve_state results ≠ "MENU_CONFIRMATION" := by
  rw [resolve_state, sortedRules_eq]
  refine firstMatch_cons_ne _ _ _ _ (by decide) ?_
  refine firstMatch_cons_ne _ _ _ _ (by decide) ?_
  refine firstMatch_cons_ne _ _ _ _ (by decide) ?_
  refine firstMatch_cons_ne _ _ _ _ (by decide) ?_
  refine firstMatch_cons_ne _ _ _ _ (by decide) ?_
  refine firstMatch_cons_ne _ _ _ _ (by decide) ?_
  refine firstMatch_cons_ne _ _ _ _ (by decide) ?_
  refine firstMatch_cons_ne _ _ _ _ (by decide) ?_
  refine firstMatch_cons_ne _ _ _ _ (by decide) ?_
  refine firstMatch_cons_ne _ _ _ _ (by decide) ?_
  refine firstMatch_cons_ne _ _ _ _ (by decide) ?_
  refine firstMatch_cons_ne _ _ _ _ (by decide) ?_
  by_cases h : ruleMatches results STATE_RULES[12]
  · simp only [firstMatch, h, if_true]
    decide
  · have hconf : ruleMatches results STATE_RULES[5] = false := by
      rw [ruleMatches_congr results STATE_RULES[5] STATE_RULES[12] (by decide) (by decide)]
      simpa using h
    simp [firstMatch, h, hconf]
    split <;> decide

/-! ## OCR selection lemmas -/

lemma mem_insertHitDesc {x y : OcrHit} {l : List OcrHit} (h : y ∈ insertHitDesc x l) :
    y = x ∨ y ∈ l := by
  induction l with
  | nil => simpa [insertHitDesc] using h
  | cons z zs ih =>
    by_cases hz : z.conf ≤ x.conf
    · simpa [insertHitDesc, hz, or_assoc] using h
    · simp only [insertHitDesc, if_neg hz, List.mem_cons] at h
      rcases h with h | h
      · exact Or.inr (by simp [h])
      · rcases ih h with h | h
        · exact Or.inl h
        · exact Or.inr (by simp [h])

lemma pairwise_insertHitDesc (x : OcrHit) (l : List OcrHit)
    (h : List.Pairwise (fun a b : OcrHit => b.conf ≤ a.conf) l) :
    List.Pairwise (fun a b : OcrHit => b.conf ≤ a.conf) (insertHitDesc x l) := by
  induction l with
  | nil => simp [insertHitDesc]
  | cons y ys ih =>
    rw [List.pairwise_cons] at h
    obtain ⟨h1, h2⟩ := h
    by_cases hy : y.conf ≤ x.conf
    · simp only [insertHitDesc, if_pos hy, List.pairwise_cons]
      refine ⟨?_, h1, h2⟩
      intro z hz
      rcases List.mem_cons.mp hz with rfl | hz
      · exact hy
      · exact le_trans (h1 z hz) hy
    · simp only [insertHitDesc, if_neg hy, List.pairwise_cons]
      refine ⟨?_, ih h2⟩
      intro z hz
      rcases mem_insertHitDesc hz with rfl | hz
      · exact le_of_lt (lt_of_not_le hy)
      · exact h1 z hz

lemma pairwise_sortHitsDesc (l : List OcrHit) :
    List.Pairwise (fun a b : OcrHit => b.conf ≤ a.conf) (sortHitsDesc l) := by
  induction l with
  | nil => simp [sortHitsDesc]
  | cons x xs ih => exact pairwise_insertHitDesc x _ ih

lemma firstQualifying_mem {t : String} {mc : Int} {l : List OcrHit} {b : OcrHit}
    (h : firstQualifying t mc l = some b) : b ∈ l := by
  induction l with
  | nil => simp [firstQualifying] at h
  | cons y ys ih =>
    by_cases hq : hitQualifies t mc y
    · simp only [firstQualifying, if_pos hq, Option.some.injEq] at h
      simp [h]
    · simp only [firstQualifying, if_neg hq] at h
      exact List.mem_cons_of_mem _ (ih h)

lemma firstQualifying_insert (t : String) (mc : Int) (x : OcrHit) (l : List OcrHit)
    (hl : List.Pairwise (fun a b : OcrHit => b.conf ≤ a.conf) l) :
    firstQualifying t mc (insertHitDesc x l) =
      combineBest t mc x (firstQualifying t mc l) := by
  induction l with
  | nil =>
    by_cases hq : hitQualifies t mc x <;>
      simp [insertHitDesc, firstQualifying, combineBest, hq]
  | cons y ys ih =>
    rw [List.pairwise_cons] at hl
    obtain ⟨h1, h2⟩ := hl
    by_cases hyx : y.conf ≤ x.conf
    · rw [show insertHitDesc x (y :: ys) = x :: y :: ys by
        simp [insertHitDesc, hyx]]
      by_cases hq : hitQualifies t mc x
      · cases hfq : firstQualifying t mc (y :: ys) with
        | none => simp [firstQualifying, combineBest, hq, hfq]
        | some b =>
          have hb : b ∈ y :: ys := firstQualifying_mem hfq
          have hbc : b.conf ≤ x.conf := by
            rcases List.mem_cons.mp hb with rfl | hb
            · exact hyx
            · exact le_trans (h1 b hb) hyx
          simp [firstQualifying, combineBest, hq, hfq, hbc]
      · rw [show firstQualifying t mc (x :: y :: ys) = firstQualifying t mc (y :: ys) by
          simp [firstQualifying, hq]]
        cases hfq : firstQualifying t mc (y :: ys) with
        | none => simp [combineBest, hq]
        | some b => simp [combineBest, hq]
    · rw [show insertHitDesc x (y :: ys) = y :: insertHitDesc x ys by
        simp [insertHitDesc, hyx]]
      by_cases hqy : hitQualifies t mc y
      · simp [firstQualifying, hqy, combineBest, hyx]
      · rw [show firstQualifying t mc (y :: insertHitDesc x ys) =
            firstQualifying t mc (insertHitDesc x ys) by
          simp [firstQualifying, hqy]]
        rw [show firstQualifying t mc (y :: ys) = firstQualifying t mc ys by
          simp [firstQualifying, hqy]]
        exact ih h2

lemma first_ocr_eq_best (hits : List OcrHit) (token : String) (mc : Int) :
    first_ocr_hit_containing hits token mc = bestQualifying (strLower token) mc hits := by
  unfold first_ocr_hit_containing
  induction hits with
  | nil => rfl
  | cons x xs ih =>
    show firstQualifying _ _ (insertHitDesc x (sortHitsDesc xs)) = _
    rw [firstQualifying_insert _ _ _ _ (pairwise_sortHitsDesc xs), ih]
    rfl

/-! ## Claim C3 -/

/-- C3: the OCR detector selects, among the hits whose confidence is at
least `min_conf`, the highest-confidence hit whose text contains the
token as a case-insensitive substring, with equal confidences going to
the first-encountered hit (`bestQualifying` renders exactly that spec
sentence); when no hit qualifies the result is `found=false` with no
bbox/text/confidence, and when one does its bbox, text and confidence
are copied into the result.  On the concrete hits
`[("AUTO",90), ("autopilot",95)]` with token `"auto"` and threshold 80,
the winner is `"autopilot"`. -/
theorem run_detector_ocr_selects_best :
    (∀ (hits : List OcrHit) (token : String) (mc : Int),
      first_ocr_hit_containing hits token mc = bestQualifying (strLower token) mc hits) ∧
    (∀ (decode : Decode) (matchT : MatchFn) (name token : String) (mc : Int)
       (hits : List OcrHit) (frame : Img) (bank : Bank),
      run_detector decode matchT name (.ocr token mc) hits frame bank =
        (match bestQualifying (strLower token) mc hits with
         | none => { name := name, kind := "ocr", found := false }
         | some h =>
           { name := name, kind := "ocr", found := true, bbox := some h.bbox,
             text := some h.text, conf := some h.conf,
             extra := some (.ocrInfo token mc) }, bank)) ∧
    run_detector (fun _ => none) (fun _ _ => .error "unused") "AUTO_TEXT" (.ocr "auto" 80)
      [⟨"AUTO", 90, (0, 0, 10, 10)⟩, ⟨"autopilot", 95, (5, 5, 20, 20)⟩] ⟨1, 1, 0⟩ [] =
      ({ name := "AUTO_TEXT", kind := "ocr", found := true, bbox := some (5, 5, 20, 20),
         text := some "autopilot", conf := some 95,
         extra := some (.ocrInfo "auto" 80) }, []) := by
  refine ⟨first_ocr_eq_best, ?_, by rfl⟩
  intro decode matchT name token mc hits frame bank
  unfold run_detector
  dsimp only
  rw [first_ocr_eq_best]

/-! ## Template bank coherence lemmas -/

lemma bankGet_fst (decode : Decode) (b : Bank) (p : String) (hb : Coherent decode b) :
    (bankGet decode b p).1 = pureGet decode p := by
  unfold bankGet pureGet
  cases hl : b.lookup p with
  | some i => simp [hb p i hl]
  | none => cases decode p <;> simp

lemma bankGet_coherent (decode : Decode) (b : Bank) (p : String) (hb : Coherent decode b) :
    Coherent decode (bankGet decode b p).2 := by
  unfold bankGet
  cases hl : b.lookup p with
  | some i => exact hb
  | none =>
    cases hd : decode p with
    | none => exact hb
    | some i =>
      intro q j hq
      simp only [List.lookup] at hq
      by_cases hqp : (q == p) = true
      · rw [hqp] at hq
        simp only [Option.some.injEq] at hq
        rw [eq_of_beq hqp, hd, hq]
      · rw [Bool.not_eq_true] at hqp
        rw [hqp] at hq
        exact hb q j hq

lemma findAnyLoop_spec (decode : Decode) (matchT : MatchFn) (frame : Img) (threshold : Int) :
    ∀ (ps : List String) (b : Bank) (sc : Int) (bb : Option BBox) (bp : Option String),
      Coherent decode b →
      (findAnyLoop decode matchT frame threshold ps b sc bb bp).2 =
        pureFindLoop decode matchT frame threshold ps sc bb bp ∧
      Coherent decode (findAnyLoop decode matchT frame threshold ps b sc bb bp).1 := by
  intro ps
  induction ps with
  | nil => intro b sc bb bp hb; exact ⟨rfl, hb⟩
  | cons p ps ih =>
    intro b sc bb bp hb
    have h1 := bankGet_fst decode b p hb
    have h2 := bankGet_coherent decode b p hb
    unfold findAnyLoop pureFindLoop
    rcases hg : bankGet decode b p with ⟨res, b2⟩
    rw [hg] at h1 h2
    simp only at h1 h2
    rw [← h1]
    cases res with
    | error e => exact ⟨rfl, h2⟩
    | ok templ =>
      dsimp only
      cases matchT frame templ with
      | error e => exact ⟨rfl, h2⟩
      | ok sxy =>
        rcases sxy with ⟨score, x, y⟩
        dsimp only
        by_cases hsc : sc < score
        · simp only [if_pos hsc]
          exact ih b2 _ _ _ h2
        · simp only [if_neg hsc]
          exact ih b2 _ _ _ h2

lemma run_detector_spec (decode : Decode) (matchT : MatchFn) (name : String)
    (cfg : DetectorCfg) (hits : List OcrHit) (frame : Img) (b : Bank)
    (hb : Coherent decode b) :
    (run_detector decode matchT name cfg hits frame b).1 =
      run_detector_pure decode matchT name cfg hits frame ∧
    Coherent decode (run_detector decode matchT name cfg hits frame b).2 := by
  cases cfg with
  | ocr token mc =>
    unfold run_detector run_detector_pure
    cases first_ocr_hit_containing hits token mc <;> exact ⟨rfl, hb⟩
  | image paths thr =>
    have h := findAnyLoop_spec decode matchT frame thr paths b (-1) none none hb
    unfold run_detector run_detector_pure find_any_template_in_frame pureFindAny
    dsimp only
    rcases hg : findAnyLoop decode matchT frame thr paths b (-1) none none with ⟨b2, res⟩
    rw [hg] at h
    simp only at h
    obtain ⟨hres, hcoh⟩ := h
    rw [← hres]
    cases res with
    | error e => exact ⟨rfl, hcoh⟩
    | ok o =>
      cases o with
      | none => exact ⟨rfl, hcoh⟩
      | some be =>
        rcases be with ⟨bb, ex⟩
        exact ⟨rfl, hcoh⟩

lemma run_detectors_spec (decode : Decode) (matchT : MatchFn) (hits : List OcrHit)
    (frame : Img) (dict : String → DetectorCfg) :
    ∀ (names : List String) (b : Bank), Coherent decode b →
      (run_detectors decode matchT names hits frame b dict).1 =
        names.map (fun n => (n, run_detector_pure decode matchT n (dict n) hits frame)) := by
  intro names
  induction names with
  | nil => intro b _; rfl
  | cons n ns ih =>
    intro b hb
    have h := run_detector_spec decode matchT n (dict n) hits frame b hb
    unfold run_detectors
    rcases hg : run_detector decode matchT n (dict n) hits frame b with ⟨r, b2⟩
    rw [hg] at h
    simp only at h
    obtain ⟨hr, hcoh⟩ := h
    simp only [List.map_cons, hr, ih b2 hcoh]

lemma lookup_map_self (f : String → DetectResult) :
    ∀ (l : List String) (n : String), n ∈ l →
      (l.map (fun x => (x, f x))).lookup n = some (f n) := by
  intro l
  induction l with
  | nil => intro n hn; simp at hn
  | cons x xs ih =>
    intro n hn
    simp only [List.map_cons, List.lookup]
    by_cases hx : (n == x) = true
    · rw [hx]
      rw [eq_of_beq hx]
    · rw [Bool.not_eq_true] at hx
      rw [hx]
      rcases List.mem_cons.mp hn with rfl | hn
      · simp at hx
      · exact ih n hn

/-! ## Claim C4 -/

/-- C4: starting from any coherent template cache, the detector batch is
the per-name map of bank-independent pure results, so one detector's
internal failure (unreadable reference file or matching backend
exception) leaves every other detector's result exactly as it would be
with the failing detector removed from the batch, and the failing
image detector's own result is `found=false` with the error note in
`extra` — the batch itself always runs to completion. -/
theorem run_detectors_isolates_failures (decode : Decode) (matchT : MatchFn)
    (hits : List OcrHit) (frame : Img) (dict : String → DetectorCfg) (b : Bank)
    (hb : Coherent decode b) :
    (∀ names, (run_detectors decode matchT names hits frame b dict).1 =
      names.map (fun n => (n, run_detector_pure decode matchT n (dict n) hits frame))) ∧
    (∀ names m n, n ∈ names → n ≠ m →
      ((run_detectors decode matchT names hits frame b dict).1.lookup n =
        some (run_detector_pure decode matchT n (dict n) hits frame) ∧
       (run_detectors decode matchT (names.erase m) hits frame b dict).1.lookup n =
        some (run_detector_pure decode matchT n (dict n) hits frame))) ∧
    (∀ n paths thr e, pureFindAny decode matchT frame paths thr = .error e →
      run_detector_pure decode matchT n (.image paths thr) hits frame =
        { name := n, kind := "image", found := false, extra := some (.err e) }) := by
  refine ⟨fun names => run_detectors_spec decode matchT hits frame dict names b hb, ?_, ?_⟩
  · intro names m n hn hnm
    constructor
    · rw [run_detectors_spec decode matchT hits frame dict names b hb]
      exact lookup_map_self _ names n hn
    · rw [run_detectors_spec decode matchT hits frame dict _ b hb]
      exact lookup_map_self _ _ n ((List.mem_erase_of_ne hnm).mpr hn)
  · intro n paths thr e he
    unfold run_detector_pure pureFindAny
    unfold pureFindAny at he
    dsimp only
    rw [he]

/-- Witness for C4: a two-detector batch on the empty (coherent) cache
where detector `B`'s template is unreadable: `A`'s result is the same
with and without `B` in the batch, and `B` downgrades to `found=false`
with the error note. -/
theorem run_detectors_isolates_failures_witness :
    (run_detectors decodeW matchW ["A", "B"] [] frameW [] dictW).1.lookup "A" =
      some (run_detector_pure decodeW matchW "A" (dictW "A") [] frameW) ∧
    (run_detectors decodeW matchW (["A", "B"].erase "B") [] frameW [] dictW).1.lookup "A" =
      some (run_detector_pure decodeW matchW "A" (dictW "A") [] frameW) ∧
    run_detector_pure decodeW matchW "B" (.image ["bad.png"] 0) [] frameW =
      { name := "B", kind := "image", found := false,
        extra := some (.err "Template could not be read: bad.png") } :=
  have hb : Coherent decodeW [] := fun _ _ h => nomatch h
  have ht := run_detectors_isolates_failures decodeW matchW [] frameW dictW [] hb
  ⟨(ht.2.1 ["A", "B"] "B" "A" (by simp) (by decide)).1,
   (ht.2.1 ["A", "B"] "B" "A" (by simp) (by decide)).2,
   ht.2.2 "B" ["bad.png"] 0 "Template could not be read: bad.png" (by rfl)⟩

/-! ## Claim C5 -/

/-- C5: `TemplateBank.get` decodes each path at most once: after a
successful `get(p)` a second `get(p)` returns the same in-memory object
with the cache unchanged and without consulting the decoder at all (the
second call's result is the same for an arbitrary decode oracle); after
`clear()` the next `get(p)` decodes afresh; a failed decode raises the
file-unreadable error, leaves the cache unchanged, and is not cached, so
a subsequent `get(p)` attempts the decode again. -/
theorem template_bank_cache_semantics :
    (∀ (decode decode2 : Decode) (b : Bank) (p : String) (i : Img) (b2 : Bank),
      bankGet decode b p = (.ok i, b2) → bankGet decode2 b2 p = (.ok i, b2)) ∧
    (∀ (decode : Decode) (b : Bank) (p : String),
      bankGet decode (bankClear b) p =
        (match decode p with
         | none => (.error ("Template could not be read: " ++ p), ([] : Bank))
         | some i => (.ok i, [(p, i)]))) ∧
    (∀ (decode : Decode) (b : Bank) (p : String),
      b.lookup p = none → decode p = none →
      bankGet decode b p = (.error ("Template could not be read: " ++ p), b)) ∧
    (∀ (decode decode2 : Decode) (b : Bank) (p : String) (i : Img),
      b.lookup p = none → decode p = none → decode2 p = some i →
      (bankGet decode2 (bankGet decode b p).2 p).1 = .ok i) := by
  refine ⟨?_, ?_, ?_, ?_⟩
  · intro decode decode2 b p i b2 h
    unfold bankGet at h ⊢
    cases hl : b.lookup p with
    | some j =>
      rw [hl] at h
      simp only [Prod.mk.injEq, Except.ok.injEq] at h
      obtain ⟨rfl, rfl⟩ := h
      rw [hl]
    | none =>
      rw [hl] at h
      cases hd : decode p with
      | none => rw [hd] at h; simp at h
      | some j =>
        rw [hd] at h
        simp only [Prod.mk.injEq, Except.ok.injEq] at h
        obtain ⟨rfl, rfl⟩ := h
        have hpj : List.lookup p ((p, j) :: b) = some j := by
          simp [List.lookup]
        rw [hpj]
  · intro decode b p
    unfold bankGet bankClear
    cases decode p <;> rfl
  · intro decode b p hl hd
    unfold bankGet
    rw [hl, hd]
  · intro decode decode2 b p i hl hd hdi
    unfold bankGet
    rw [hl, hd]
    simp only
    rw [hl, hdi]

/-- Witness for C5: on the concrete decoder that reads `good.png`, the
second `get` returns the cached object even under a dead decoder; after
`clear()` the decode happens again; `bad.png` raises without touching
the cache; after a failed `get` a now-working decoder succeeds. -/
theorem template_bank_cache_semantics_witness :
    bankGet (fun _ => none) (bankGet decodeW [] "good.png").2 "good.png" =
      (.ok ⟨3, 4, 0⟩, [("good.png", ⟨3, 4, 0⟩)]) ∧
    bankGet decodeW (bankClear [("good.png", ⟨3, 4, 0⟩)]) "good.png" =
      (.ok ⟨3, 4, 0⟩, [("good.png", ⟨3, 4, 0⟩)]) ∧
    bankGet decodeW [] "bad.png" =
      (.error "Template could not be read: bad.png", ([] : Bank)) ∧
    (bankGet decodeW (bankGet (fun _ => none) [] "good.png").2 "good.png").1 =
      .ok ⟨3, 4, 0⟩ :=
  have h1 : bankGet decodeW [] "good.png" =
      (.ok ⟨3, 4, 0⟩, [("good.png", ⟨3, 4, 0⟩)]) := by rfl
  ⟨by
    rw [show (bankGet decodeW [] "good.png").2 = [("good.png", ⟨3, 4, 0⟩)] by rw [h1]]
    exact template_bank_cache_semantics.1 decodeW (fun _ => none) [] "good.png" _ _ h1,
   by
    have h2 := template_bank_cache_semantics.2.1 decodeW
      [("good.png", ⟨3, 4, 0⟩)] "good.png"
    rw [h2]
    rfl,
   template_bank_cache_semantics.2.2.1 decodeW [] "bad.png" (by rfl) (by rfl),
   template_bank_cache_semantics.2.2.2 (fun _ => none) decodeW [] "good.png" ⟨3, 4, 0⟩
     (by rfl) (by rfl) (by rfl)⟩

/-! ## Fullscreen heuristic lemmas -/

lemma cover_iff (ww mw : Int) (hm : 0 < mw) :
    ((95 : ℚ) / 100 < (ww : ℚ) / (mw : ℚ)) ↔ 19 * mw < 20 * ww := by
  rw [div_lt_div_iff₀ (by norm_num : (0 : ℚ) < 100) (by exact_mod_cast hm)]
  constructor
  · intro h
    have h2 : (95 : Int) * mw < ww * 100 := by exact_mod_cast h
    omega
  · intro h
    have h2 : (95 : Int) * mw < ww * 100 := by omega
    exact_mod_cast h2

lemma looks_fullscreen_like_true_iff (w m : Rect) (hw : 0 < m.r - m.l)
    (hh : 0 < m.b - m.t) :
    looks_fullscreen_like w m = true ↔
      (19 * (m.r - m.l) < 20 * (w.r - w.l) ∧ 19 * (m.b - m.t) < 20 * (w.b - w.t)) := by
  unfold looks_fullscreen_like
  rw [if_neg (by omega : ¬ (m.r - m.l ≤ 0 ∨ m.b - m.t ≤ 0))]
  rw [Bool.and_eq_true, decide_eq_true_eq, decide_eq_true_eq]
  rw [cover_iff _ _ hw, cover_iff _ _ hh]

/-! ## Claim C6 (corrected) -/

/-- C6 counterexample: a window whose footprint covers exactly 95% of a
positive-dimension monitor in both width and height is NOT treated as
fullscreen-like — the code's threshold is strictly greater than 0.95,
refuting "at least 95%". -/
theorem looks_fullscreen_like_false_at_exact_95 :
    ((⟨0, 0, 95, 95⟩ : Rect).r - (⟨0, 0, 95, 95⟩ : Rect).l) * 100 =
      95 * ((⟨0, 0, 100, 100⟩ : Rect).r - (⟨0, 0, 100, 100⟩ : Rect).l) ∧
    ((⟨0, 0, 95, 95⟩ : Rect).b - (⟨0, 0, 95, 95⟩ : Rect).t) * 100 =
      95 * ((⟨0, 0, 100, 100⟩ : Rect).b - (⟨0, 0, 100, 100⟩ : Rect).t) ∧
    0 < (⟨0, 0, 100, 100⟩ : Rect).r - (⟨0, 0, 100, 100⟩ : Rect).l ∧
    0 < (⟨0, 0, 100, 100⟩ : Rect).b - (⟨0, 0, 100, 100⟩ : Rect).t ∧
    looks_fullscreen_like ⟨0, 0, 95, 95⟩ ⟨0, 0, 100, 100⟩ = false := by
  refine ⟨by decide, by decide, by decide, by decide, ?_⟩
  rw [Bool.eq_false_iff, Ne,
    looks_fullscreen_like_true_iff _ _ (by decide) (by decide)]
  decide

/-- C6 amended: for every window rectangle and target monitor rectangle
with positive dimensions, the window is treated as fullscreen-like
exactly when its footprint covers strictly more than 95% of the
monitor's width and strictly more than 95% of its height (so exactly
95% is not fullscreen-like). -/
theorem looks_fullscreen_like_iff_strictly_above_95 (w m : Rect)
    (hw : 0 < m.r - m.l) (hh : 0 < m.b - m.t) :
    looks_fullscreen_like w m = true ↔
      (19 * (m.r - m.l) < 20 * (w.r - w.l) ∧ 19 * (m.b - m.t) < 20 * (w.b - w.t)) :=
  looks_fullscreen_like_true_iff w m hw hh

/-- Witness for the amended C6: a window covering 96% of both dimensions
is fullscreen-like. -/
theorem looks_fullscreen_like_iff_strictly_above_95_witness :
    looks_fullscreen_like ⟨0, 0, 96, 96⟩ ⟨0, 0, 100, 100⟩ = true :=
  (looks_fullscreen_like_iff_strictly_above_95 ⟨0, 0, 96, 96⟩ ⟨0, 0, 100, 100⟩
    (by decide) (by decide)).mpr (by decide)

/-! ## Claim C7 -/

/-- C7: when one `ensure_window` call ends with a compliant status (every
corrective guard false) and nothing in the environment changes, the next
`ensure_window` call performs zero corrective operations — no activate,
no fullscreen toggle, no move, no resize (empty trace) — leaves the
environment untouched and reports the same status: it only performs
geometry reads. -/
theorem ensure_window_idempotent {S : Type} (api : WinAPI S) (cfg : EnforceConfig)
    (s0 : S) (h : Compliant cfg (ensure_window api cfg s0).status) :
    ensure_window api cfg (ensure_window api cfg s0).state =
      { state := (ensure_window api cfg s0).state,
        status := (ensure_window api cfg s0).status,
        trace := [] } := by
  have hst : (ensure_window api cfg s0).status =
      get_window_status api cfg (ensure_window api cfg s0).state := rfl
  rw [hst] at h
  obtain ⟨h1, h2, h3, h4, h5⟩ := h
  rw [hst]
  set t := (ensure_window api cfg s0).state
  show ensure_window api cfg t = _
  unfold ensure_window
  simp [h1, h2, h3, h4, h5]

/-- Witness for C7 on a concrete already-compliant environment. -/
theorem ensure_window_idempotent_witness :
    ensure_window apiW cfgW ((ensure_window apiW cfgW ()).state) =
      { state := (ensure_window apiW cfgW ()).state,
        status := (ensure_window apiW cfgW ()).status,
        trace := [] } :=
  ensure_window_idempotent apiW cfgW () (by
    refine ⟨by decide, ?_, by decide, by decide, by decide⟩
    show looks_fullscreen_like ⟨40, 40, 140, 140⟩ ⟨0, 0, 1000, 1000⟩ = false
    rw [Bool.eq_false_iff, Ne,
      looks_fullscreen_like_true_iff _ _ (by decide) (by decide)]
    decide)

/-! ## Claim C8 -/

/-- C8: whenever the `HOME_SCREEN` branch dispatches a click — which it
does exactly when the `HOME_SCREEN_ICON` result is found with a bbox —
the clicked point is the center of the `HOME_SCREEN_GAME_ICON` result's
bbox, not `HOME_SCREEN_ICON`'s own: on the concrete map where the two
detectors carry different bboxes, the dispatched point is the game
icon's center `(105, 210)` and not the guard detector's center
`(1, 1)`. -/
theorem home_screen_branch_clicks_game_icon (results : Results) (r g : DetectResult)
    (bb : BBox) (h1 : results "HOME_SCREEN_ICON" = some r) (h2 : r.found = true)
    (h3 : r.bbox.isSome = true) (h4 : results "HOME_SCREEN_GAME_ICON" = some g)
    (h5 : g.bbox = some bb) :
    (home_screen_branch results = .ok (some (bbox_center bb))) ∧
    home_screen_branch resultsHome = .ok (some (105, 210)) ∧
    bbox_center (0, 0, 2, 2) = (1, 1) ∧ ((105, 210) : Int × Int) ≠ (1, 1) := by
  refine ⟨?_, by rfl, by decide, by decide⟩
  unfold home_screen_branch
  rw [h1]
  dsimp only
  rw [if_pos (show (r.found && r.bbox.isSome) = true by rw [h2, h3]; rfl)]
  rw [h4]
  dsimp only
  rw [h5]

/-- Witness for C8 at the concrete two-detector result map. -/
theorem home_screen_branch_clicks_game_icon_witness :
    home_screen_branch resultsHome = .ok (some (bbox_center (100, 200, 10, 20))) :=
  (home_screen_branch_clicks_game_icon resultsHome
    { name := "HOME_SCREEN_ICON", kind := "image", found := true,
      bbox := some (0, 0, 2, 2) }
    { name := "HOME_SCREEN_GAME_ICON", kind := "image", found := true,
      bbox := some (100, 200, 10, 20) }
    (100, 200, 10, 20) (by rfl) rfl (by rfl) (by rfl) rfl).1

/-! ## Claim C9 -/

/-- The dispatch chain collapses definitionally: the first branch tests
against the defined `states.STATE_DEAD`, and every later branch is
blocked by the undefined `states.STATE_AUTO_STOPPED` attribute. -/
lemma dispatch_action_eq (s : String) :
    dispatch_action s =
      if s = "DEAD" then .ok ScanAction.deadClick
      else .error "AttributeError: module states has no attribute STATE_AUTO_STOPPED" := rfl

/-- C9: for every resolved state other than `"DEAD"`, evaluating the
dispatch chain raises `AttributeError` on the undefined
`states.STATE_AUTO_STOPPED` before any action is dispatched, and the
per-cycle handler logs it; only the `DEAD` branch's action is reachable
— every completed dispatch is the dead-click on state `"DEAD"`, so no
other state's action (including `IN_RUN`'s, whose constant exists) can
ever execute. -/
theorem dispatch_chain_attribute_error (s : String) :
    (s ≠ "DEAD" →
      dispatch_action s =
        .error "AttributeError: module states has no attribute STATE_AUTO_STOPPED" ∧
      scan_dispatch_outcome s =
        .inr "[error] AttributeError: module states has no attribute STATE_AUTO_STOPPED") ∧
    dispatch_action "DEAD" = .ok ScanAction.deadClick ∧
    (∀ a, dispatch_action s = .ok a → s = "DEAD" ∧ a = ScanAction.deadClick) := by
  refine ⟨?_, by rw [dispatch_action_eq]; rfl, ?_⟩
  · intro hne
    constructor
    · rw [dispatch_action_eq, if_neg hne]
    · unfold scan_dispatch_outcome
      rw [dispatch_action_eq, if_neg hne]
      rfl
  · intro a ha
    rw [dispatch_action_eq] at ha
    by_cases hd : s = "DEAD"
    · rw [if_pos hd] at ha
      exact ⟨hd, by injection ha with h; exact h.symm⟩
    · rw [if_neg hd] at ha
      exact absurd ha (by simp)

/-- Witness for C9 at the resolved state `"IN_RUN"` (whose `states`
constant does exist, yet whose branch is unreachable). -/
theorem dispatch_chain_attribute_error_witness :
    dispatch_action "IN_RUN" =
      .error "AttributeError: module states has no attribute STATE_AUTO_STOPPED" ∧
    scan_dispatch_outcome "IN_RUN" =
      .inr "[error] AttributeError: module states has no attribute STATE_AUTO_STOPPED" :=
  (dispatch_chain_attribute_error "IN_RUN").1 (by decide)

end ScreenReader
